import Mathlib

set_option maxRecDepth 20000

/-!
Shallow embedding of `Alarma.ino`, an ESP32 firmware sketch exposing a
three-route web server (`/`, `/on`, `/off`) that drives two LEDs and a
buzzer.  The sketch's GPIO/HTTP effects are modelled as a small statement
language (digital writes, delays, HTTP header/response sends, and a
fixed-count `for` loop), interpreted over the state of the three output
pins.  Each route handler is translated action-for-action from the source.
-/

namespace Alarma

/-- Arduino digital level HIGH. -/
def HIGH : Bool := true

/-- Arduino digital level LOW. -/
def LOW : Bool := false

/-- GPIO pin for LED 1 (`const int led1 = 27`). -/
def led1 : Nat := 27

/-- GPIO pin for LED 2 (`const int led2 = 26`). -/
def led2 : Nat := 26

/-- GPIO pin for the buzzer (`const int buzzer = 25`). -/
def buzzer : Nat := 25

/-- Wi-Fi SSID of the access point (`const char *ssid`). -/
def ssid : String := "Alarma"

/-- Wi-Fi passphrase of the access point (`const char *password`). -/
def password : String := "contrasenasegura"

/-- Instantaneous levels of the three output pins.  The sketch tracks no
other state: the pins are whatever they were last written to. -/
structure PinState where
  led1 : Bool
  led2 : Bool
  buzzer : Bool
deriving DecidableEq, Repr

/-- One primitive effect performed by a route handler: a `digitalWrite`,
a `delay`, a `server.sendHeader`, or a `server.send` (with optional
content type and body, absent for the bare `server.send(303)`). -/
inductive Action where
  | write (pin : Nat) (level : Bool)
  | delayMs (ms : Nat)
  | sendHeader (key value : String)
  | send (code : Nat) (contentType body : Option String)
deriving DecidableEq, Repr

/-- A handler statement: either a primitive action or the sketch's
`for (int i = 0; i < n; i++) { body }` loop over primitive actions
(the source has exactly one such loop, not nested). -/
inductive Stmt where
  | act (a : Action)
  | forN (count : Nat) (body : List Action)
deriving DecidableEq, Repr

/-- A route handler is a sequence of statements. -/
def Program : Type := List Stmt

/-- Semantics of `digitalWrite(pin, level)` on the three-pin state:
writes to pin 27/26/25 update the corresponding field, any other pin
number is not an output of this sketch and leaves the state unchanged. -/
def digitalWrite (pin : Nat) (level : Bool) (s : PinState) : PinState :=
  if pin = led1 then { s with led1 := level }
  else if pin = led2 then { s with led2 := level }
  else if pin = buzzer then { s with buzzer := level }
  else s

/-- Effect of one action on the pin state: only `digitalWrite` changes
pins; delays and HTTP sends leave them untouched. -/
def applyAction (s : PinState) : Action → PinState
  | .write p b => digitalWrite p b s
  | .delayMs _ => s
  | .sendHeader _ _ => s
  | .send _ _ _ => s

/-- Unfold one statement into its primitive actions: the `for` loop with
count `n` executes its body `n` times in order. -/
def flattenStmt : Stmt → List Action
  | .act a => [a]
  | .forN n body => (List.replicate n body).flatten

/-- The full ordered sequence of primitive actions a handler performs.
The source has no conditionals, so this trace is the same on every
invocation, independent of the pin state. -/
def trace (p : Program) : List Action :=
  (p.map flattenStmt).flatten

/-- Pin state after running a handler from state `s`. -/
def run (s : PinState) (p : Program) : PinState :=
  (trace p).foldl applyAction s

/-- True exactly on `delay` actions. -/
def isDelay : Action → Bool
  | .delayMs _ => true
  | _ => false

/-- True exactly on `digitalWrite` actions. -/
def isWrite : Action → Bool
  | .write _ _ => true
  | _ => false

/-- The pin states observable at each sampled instant of an action
sequence run from `s`: the state holding during each `delay`, i.e. the
state in force when that delay action is reached. -/
def sampledStates : PinState → List Action → List PinState
  | _, [] => []
  | s, a :: rest =>
    (if isDelay a then [applyAction s a] else []) ++ sampledStates (applyAction s a) rest

/-- Character-list prefix test, used for the substring check below. -/
def isPrefixOfCh : List Char → List Char → Bool
  | [], _ => true
  | _ :: _, [] => false
  | a :: as, b :: bs => a == b && isPrefixOfCh as bs

/-- Does `needle` occur as a contiguous run inside the haystack? -/
def containsSub (needle : List Char) : List Char → Bool
  | [] => isPrefixOfCh needle []
  | b :: bs => isPrefixOfCh needle (b :: bs) || containsSub needle bs

/-- Does string `needle` occur inside string `hay`? -/
def containsStr (hay needle : String) : Bool :=
  containsSub needle.data hay.data

/-- The HTML page built by `handleRoot`, concatenated exactly as in the
source (apostrophes written as the escape `\x27`). -/
def htmlRoot : String :=
  "<!DOCTYPE html><html><head><meta charset=\x27UTF-8\x27><title>Control</title></head>"
  ++ "<body style=\x27margin: 0; height: 100vh; display: flex; flex-direction: column; justify-content: center; align-items: center;"
  ++ "background: linear-gradient(to right, #0b2e13, #1d6b2f); font-family: Arial, sans-serif;\x27>"
  ++ "<h1 style=\x27color: white; font-size: 60px; margin-bottom: 40px;\x27>Control de Alarma</h1>"
  ++ "<p><a href=\x27/on\x27><button style=\x27padding: 20px 40px; font-size: 40px; border-radius: 30px; margin: 20px;\x27>ON</button></a></p>"
  ++ "<p><a href=\x27/off\x27><button style=\x27padding: 20px 40px; font-size: 40px; border-radius: 30px; margin: 20px;\x27>OFF</button></a></p>"
  ++ "</body></html>"

/-- The `/` route handler (`handleRoot`): builds the HTML page and sends
it with status 200 and content type `text/html`; it touches no pin. -/
def handleRoot : Program :=
  [ .act (.send 200 (some "text/html") (some htmlRoot)) ]

/-- Body of the `for (int i = 0; i < 3; i++)` loop in the `/on` handler,
action-for-action from the source. -/
def onLoopBody : List Action :=
  [ .write led1 HIGH, .write led2 LOW, .write buzzer HIGH, .delayMs 500,
    .write led1 LOW, .write led2 HIGH, .write buzzer LOW, .delayMs 500 ]

/-- The `/on` route handler lambda: the three-iteration loop, then
led1 and buzzer high with one more delay, then the 303 redirect. -/
def onHandler : Program :=
  [ .forN 3 onLoopBody,
    .act (.write led1 HIGH),
    .act (.write buzzer HIGH),
    .act (.delayMs 500),
    .act (.sendHeader "Location" "/"),
    .act (.send 303 none none) ]

/-- The `/off` route handler lambda: all three outputs low, then the
303 redirect, with no delay anywhere. -/
def offHandler : Program :=
  [ .act (.write led1 LOW),
    .act (.write led2 LOW),
    .act (.write buzzer LOW),
    .act (.sendHeader "Location" "/"),
    .act (.send 303 none none) ]

/-- Observable outcome of `setup()`: what was printed to the serial log,
whether the sketch fell into the `while (true);` halt, which routes got
registered, and whether `server.begin()` ran. -/
structure SetupOutcome where
  serialLog : List String
  halted : Bool
  routes : List (String × Program)
  serverStarted : Bool

/-- `setup()` as a function of whether `WiFi.softAP(ssid, password)`
succeeded.  On failure the sketch prints the error and loops forever,
never registering routes or starting the server; on success it prints
the AP address line and start message, registers the three routes and
starts the server.  (The concrete IP digits are hardware-supplied and
not modelled.) -/
def setup (softAPOk : Bool) : SetupOutcome :=
  if softAPOk then
    { serialLog := ["Direccion IP del AP: ", "Servidor HTTP iniciado"],
      halted := false,
      routes := [("/", handleRoot), ("/on", onHandler), ("/off", offHandler)],
      serverStarted := true }
  else
    { serialLog := ["Error al crear el Access Point."],
      halted := true,
      routes := [],
      serverStarted := false }

/-- C1: for every prior pin state, the `/off` handler drives led1, led2
and the buzzer all low, and its action trace is exactly the three writes
followed directly by the 303 redirect with header `Location: /` — no
delay and no other action in between. -/
theorem off_clears_all_then_redirects :
    (∀ s : PinState, run s offHandler = ⟨LOW, LOW, LOW⟩) ∧
    trace offHandler =
      [ .write led1 LOW, .write led2 LOW, .write buzzer LOW,
        .sendHeader "Location" "/", .send 303 none none ] := by
  refine ⟨fun s => ?_, rfl⟩
  obtain ⟨a, b, c⟩ := s
  rfl

/-- C2: the `/on` handler's action trace is exactly three repetitions of
(led1 high, led2 low, buzzer high, 500 ms pause; led1 low, led2 high,
buzzer low, 500 ms pause), then led1 high, buzzer high and one final
500 ms pause, and only then the 303 redirect with `Location: /`. -/
theorem on_exact_sequence :
    trace onHandler =
      [ .write led1 HIGH, .write led2 LOW, .write buzzer HIGH, .delayMs 500,
        .write led1 LOW, .write led2 HIGH, .write buzzer LOW, .delayMs 500,
        .write led1 HIGH, .write led2 LOW, .write buzzer HIGH, .delayMs 500,
        .write led1 LOW, .write led2 HIGH, .write buzzer LOW, .delayMs 500,
        .write led1 HIGH, .write led2 LOW, .write buzzer HIGH, .delayMs 500,
        .write led1 LOW, .write led2 HIGH, .write buzzer LOW, .delayMs 500,
        .write led1 HIGH, .write buzzer HIGH, .delayMs 500,
        .sendHeader "Location" "/", .send 303 none none ] := rfl

/-- C3: whatever the pins held before, after the `/on` handler completes
led1 is high and the buzzer is high. -/
theorem on_leaves_led1_buzzer_high (s : PinState) :
    (run s onHandler).led1 = HIGH ∧ (run s onHandler).buzzer = HIGH := by
  obtain ⟨a, b, c⟩ := s
  exact ⟨rfl, rfl⟩

/-- C4: at every sampled instant of the three-repetition loop phase of
the `/on` handler — the state in force at each `delay` — started from any
pin state, led1 and led2 hold opposite levels and the buzzer holds the
same level as led1. -/
theorem on_loop_alternation_invariant (s : PinState) :
    ((sampledStates s (flattenStmt (.forN 3 onLoopBody))).all
      fun st => (st.led1 != st.led2) && (st.buzzer == st.led1)) = true := by
  obtain ⟨a, b, c⟩ := s
  rfl

/-- C5: running the `/off` handler twice from any starting pin state
yields the same final pin state as running it once. -/
theorem off_idempotent (s : PinState) :
    run (run s offHandler) offHandler = run s offHandler := by
  obtain ⟨a, b, c⟩ := s
  rfl

/-- C6: the `/` handler's sole action is sending status 200 with content
type `text/html`, and the page it sends contains links to both `/on` and
`/off`. -/
theorem root_sends_200_html_with_links :
    trace handleRoot = [.send 200 (some "text/html") (some htmlRoot)] ∧
    containsStr htmlRoot "<a href=\x27/on\x27>" = true ∧
    containsStr htmlRoot "<a href=\x27/off\x27>" = true :=
  ⟨rfl, by decide, by decide⟩

/-- C7: when `WiFi.softAP` fails, `setup` logs the access-point error and
halts forever, registering no route and never starting the server; when
it succeeds, there is no halt and the server starts with the three
routes — failure of `softAP` is the only branch that halts. -/
theorem softap_failure_halts :
    (setup false).halted = true ∧
    (setup false).serialLog = ["Error al crear el Access Point."] ∧
    (setup false).routes = [] ∧
    (setup false).serverStarted = false ∧
    (setup true).halted = false ∧
    (setup true).serverStarted = true ∧
    (setup true).routes.map Prod.fst = ["/", "/on", "/off"] :=
  ⟨rfl, rfl, rfl, rfl, rfl, rfl, rfl⟩

/-- C8: the `/on` handler always runs to completion along the same fixed
trace: the loop unfolds to exactly three copies of its body with no
early exit, the whole trace has exactly 7 delays and 29 actions, and it
is identical for every invocation since `trace` does not depend on the
pin state. -/
theorem on_fixed_count_terminates :
    trace onHandler =
      onLoopBody ++ onLoopBody ++ onLoopBody ++
        [ .write led1 HIGH, .write buzzer HIGH, .delayMs 500,
          .sendHeader "Location" "/", .send 303 none none ] ∧
    (trace onHandler).countP isDelay = 7 ∧
    (trace onHandler).length = 29 :=
  ⟨rfl, rfl, rfl⟩

/-- C9: for every prior pin state, after the `/on` handler completes the
full pin state is led1 high, led2 high and buzzer high — led2 keeps the
high level from the last loop iteration since the final phase never
writes it. -/
theorem on_leaves_all_high (s : PinState) :
    run s onHandler = ⟨HIGH, HIGH, HIGH⟩ := by
  obtain ⟨a, b, c⟩ := s
  rfl

/-- C10: the `/` handler performs no `digitalWrite` at all, and running
it leaves every pin state exactly as it was. -/
theorem root_writes_no_pin :
    (trace handleRoot).countP isWrite = 0 ∧
    ∀ s : PinState, run s handleRoot = s :=
  ⟨rfl, fun _ => rfl⟩

end Alarma
